import Mathlib

/-!
Verification of the UXP Photoshop AI plugin panel (`src/uxp-plugin/main.js`).

JavaScript strings are modelled as lists of Unicode scalar values
(`List Char`); machine numbers that the claims exercise are naturals.
Host (Photoshop) interactions are modelled by explicit host-environment
records carrying the outcome of each host call, and the single-threaded
`async` control flow of the panel is modelled by explicit sequencing:
DOM reads before the first `await` see the click-time DOM state, reads
after the `await` see the DOM state at the moment the awaited promise
settles.
-/

/-- A JavaScript string: a list of Unicode scalar values. -/
abbrev JStr := List Char

/-- The `MODEL_LABELS` lookup table of main.js (`MODEL_LABELS[key]` is
`undefined`, i.e. `none`, for a key outside the table). -/
def MODEL_LABELS (m : JStr) : Option JStr :=
  if m = "qwen".data then some "Qwen (Alibaba)".data
  else if m = "nano-banana".data then some "Google Nano Banana".data
  else if m = "grok".data then some "xAI Grok".data
  else if m = "meta".data then some "Meta AI".data
  else none

/-- The `WORKFLOW_LABELS` lookup table of main.js. -/
def WORKFLOW_LABELS (w : JStr) : Option JStr :=
  if w = "generate".data then some "Generate new artwork".data
  else if w = "edit".data then some "Edit current selection".data
  else if w = "expand".data then some "Outpaint beyond canvas".data
  else none

/-- The code points ECMAScript `String.prototype.trim` removes
(WhiteSpace and LineTerminator productions). -/
def jsWhitespaceCodes : List Nat :=
  [0x09, 0x0A, 0x0B, 0x0C, 0x0D, 0x20, 0xA0, 0x1680,
   0x2000, 0x2001, 0x2002, 0x2003, 0x2004, 0x2005, 0x2006, 0x2007,
   0x2008, 0x2009, 0x200A, 0x2028, 0x2029, 0x202F, 0x205F, 0x3000, 0xFEFF]

/-- Whether `String.prototype.trim` strips this character. -/
def isJsWhitespace (c : Char) : Bool :=
  jsWhitespaceCodes.contains c.toNat

/-- ECMAScript `String.prototype.trim`: strip leading and trailing
JS whitespace. -/
def jsTrim (s : JStr) : JStr :=
  ((s.dropWhile isJsWhitespace).reverse.dropWhile isJsWhitespace).reverse

/-- JS `s.replace(/c/g, rep)` for a single-character pattern `c`: every
occurrence of `c` is replaced by `rep`, in one left-to-right pass. -/
def jsReplaceChar (c : Char) (rep : JStr) (s : JStr) : JStr :=
  s.flatMap (fun x => if x = c then rep else [x])

/-- `escapeHtml` of main.js: five chained global single-character
replaces, ampersand first. -/
def escapeHtml (s : JStr) : JStr :=
  jsReplaceChar '\'' "&#039;".data
    (jsReplaceChar '\"' "&quot;".data
      (jsReplaceChar '>' "&gt;".data
        (jsReplaceChar '<' "&lt;".data
          (jsReplaceChar '&' "&amp;".data s))))

/-- Single-pass character escaping; `escapeHtml` is proved equal to
`flatMap escCharHtml`. -/
def escCharHtml (c : Char) : JStr :=
  if c = '&' then "&amp;".data
  else if c = '<' then "&lt;".data
  else if c = '>' then "&gt;".data
  else if c = '\"' then "&quot;".data
  else if c = '\'' then "&#039;".data
  else [c]

/-- Modelled from the spec: the standard HTML/SVG entity unescaper for
the five entities the spec names (`&amp; &lt; &gt; &quot; &#039;`); any
parser of the embedded vector-graphics text maps these entities back to
the characters they denote and copies everything else verbatim. -/
def unescapeEntities : JStr → JStr
  | [] => []
  | c :: rest =>
    if c = '&' && "amp;".data.isPrefixOf rest then '&' :: unescapeEntities (rest.drop 4)
    else if c = '&' && "lt;".data.isPrefixOf rest then '<' :: unescapeEntities (rest.drop 3)
    else if c = '&' && "gt;".data.isPrefixOf rest then '>' :: unescapeEntities (rest.drop 3)
    else if c = '&' && "quot;".data.isPrefixOf rest then '\"' :: unescapeEntities (rest.drop 5)
    else if c = '&' && "#039;".data.isPrefixOf rest then '\'' :: unescapeEntities (rest.drop 5)
    else c :: unescapeEntities rest
termination_by s => s.length
decreasing_by all_goals simp <;> omega

/-- The characters ECMAScript `encodeURIComponent` leaves unencoded:
letters, digits and `- _ . ! ~ * ' ( )`. -/
def isUriUnreserved (c : Char) : Bool :=
  let n := c.toNat
  (65 ≤ n && n ≤ 90) || (97 ≤ n && n ≤ 122) || (48 ≤ n && n ≤ 57) ||
  n = 45 || n = 95 || n = 46 || n = 33 || n = 126 || n = 42 ||
  n = 39 || n = 40 || n = 41

/-- UTF-8 encoding of a Unicode scalar value, as a byte list. -/
def utf8Bytes (n : Nat) : List Nat :=
  if n < 0x80 then [n]
  else if n < 0x800 then [0xC0 + n / 64, 0x80 + n % 64]
  else if n < 0x10000 then [0xE0 + n / 4096, 0x80 + n / 64 % 64, 0x80 + n % 64]
  else [0xF0 + n / 262144, 0x80 + n / 4096 % 64, 0x80 + n / 64 % 64, 0x80 + n % 64]

/-- Uppercase hexadecimal digit, as produced by `encodeURIComponent`. -/
def hexDigitUpper (n : Nat) : Char :=
  Char.ofNat (if n < 10 then 48 + n else 55 + n)

/-- The percent escape `%HH` of one byte. -/
def pctTriple (b : Nat) : JStr :=
  ['%', hexDigitUpper (b / 16), hexDigitUpper (b % 16)]

/-- ECMAScript `encodeURIComponent`: unreserved characters are copied,
every other character is UTF-8 encoded and percent-escaped. -/
def encodeURIComponent (s : JStr) : JStr :=
  s.flatMap (fun c =>
    if isUriUnreserved c then [c] else (utf8Bytes c.toNat).flatMap pctTriple)

/-- The encoding chain of `simulatePreview`:
`encodeURIComponent(svg).replace(/'/g,"%27").replace(/\(/g,"%28").replace(/\)/g,"%29")`. -/
def uriEncodeFull (s : JStr) : JStr :=
  jsReplaceChar ')' "%29".data
    (jsReplaceChar '(' "%28".data
      (jsReplaceChar '\'' "%27".data (encodeURIComponent s)))

/-- The characters `uriEncodeFull` leaves unencoded: the unreserved set
minus the three characters the post-passes escape. -/
def uriKeep (c : Char) : Bool :=
  isUriUnreserved c && !(c = '\'' || c = '(' || c = ')')

/-- Single-pass character encoding; `uriEncodeFull` is proved equal to
`flatMap encUriChar`. -/
def encUriChar (c : Char) : JStr :=
  if uriKeep c then [c] else (utf8Bytes c.toNat).flatMap pctTriple

/-- Modelled from the spec: the value of one hexadecimal digit, as any
standard percent-decoder reads it (`0` on a non-digit, irrelevant on
well-formed input). -/
def hexNat (c : Char) : Nat :=
  let n := c.toNat
  if 48 ≤ n && n ≤ 57 then n - 48
  else if 65 ≤ n && n ≤ 70 then n - 55
  else if 97 ≤ n && n ≤ 102 then n - 87
  else 0

/-- Modelled from the spec: the byte stream a standard percent-decoder
reads off a percent-encoded string: `%HH` becomes one byte, any other
character stands for its own code point. -/
def pctBytes : JStr → List Nat
  | [] => []
  | c :: rest =>
    if c = '%' then
      match rest with
      | h :: l :: r => (16 * hexNat h + hexNat l) :: pctBytes r
      | r => c.toNat :: pctBytes r
    else c.toNat :: pctBytes rest

/-- Modelled from the spec: standard UTF-8 decoding of a byte stream
(malformed suffixes are irrelevant on well-formed input). -/
def utf8Decode : List Nat → List Char
  | [] => []
  | b :: rest =>
    if b < 0x80 then Char.ofNat b :: utf8Decode rest
    else if b < 0xE0 then
      Char.ofNat ((b - 0xC0) * 64 + (rest.headD 0 - 0x80)) :: utf8Decode (rest.drop 1)
    else if b < 0xF0 then
      Char.ofNat ((b - 0xE0) * 4096 + (rest.headD 0 - 0x80) * 64 +
        ((rest.drop 1).headD 0 - 0x80)) :: utf8Decode (rest.drop 2)
    else
      Char.ofNat ((b - 0xF0) * 262144 + (rest.headD 0 - 0x80) * 4096 +
        ((rest.drop 1).headD 0 - 0x80) * 64 + ((rest.drop 2).headD 0 - 0x80)) ::
        utf8Decode (rest.drop 3)
termination_by s => s.length
decreasing_by all_goals simp <;> omega

/-- Modelled from the spec: standard percent-decoding of a
percent-encoded string (the inverse direction of the data-URL encoding;
the plugin never decodes, the host image renderer does). -/
def percentDecode (s : JStr) : JStr :=
  utf8Decode (pctBytes s)

/-- Substring containment: `pat` occurs contiguously in `s`. -/
def ContainsStr (s pat : JStr) : Prop :=
  ∃ a b, s = a ++ pat ++ b

/-- Decidable substring search used to refute containment on concrete
strings. -/
def occursB (pat : JStr) : JStr → Bool
  | [] => pat.isEmpty
  | c :: rest => pat.isPrefixOf (c :: rest) || occursB pat rest

/-- The DOM input state the panel reads: one field per element of
main.js's `elements` that the handlers read. The slider value is the
numeric reading `Number(elements.strengthSlider.value)` of the range
input; `documentInfo` is the text content of the document-info
readout. -/
structure Elements where
  promptInput : JStr
  modelPicker : JStr
  workflowPicker : JStr
  strengthSlider : Nat
  seamlessSwitch : Bool
  maskSwitch : Bool
  documentInfo : JStr
deriving DecidableEq, Repr

/-- The summary object `fetchDocumentSummary` builds: `none` fields are
JS `undefined`. -/
structure DocSummary where
  name : JStr
  widthPx : Option Nat
  heightPx : Option Nat
  resolution : Option Nat
  numberOfLayers : Option Nat
deriving DecidableEq, Repr

/-- The active document as the host exposes it: `title`/`name` may be
absent, `width`/`height` are `some w` exactly when the host hands back a
unit value whose `as("px")` conversion works and yields `w`. -/
structure HostDocInfo where
  title : Option JStr
  name : Option JStr
  resolution : Option Nat
  width : Option Nat
  height : Option Nat
deriving DecidableEq, Repr

/-- The descriptor `action.batchPlay` resolves with:
`numberOfLayers` is `some n` exactly when the field is present and a
number. -/
structure BatchDescriptor where
  numberOfLayers : Option Nat
deriving DecidableEq, Repr

/-- The host environment a generate request runs against. Each field is
the outcome of one independently failable host interaction:
`documentsLength` (`app.documents.length`), `activeDocument`
(`app.activeDocument` together with its property getters), and
`batchPlay`, which resolves with an optional first descriptor
(`none` when the result array is empty) or rejects. An `Except.error`
carries the thrown error's `message`. -/
structure GenHost where
  documentsLength : Except JStr Nat
  activeDocument : Except JStr HostDocInfo
  batchPlay : Except JStr (Option BatchDescriptor)

/-- JS `a || b` on an optional string: the left value when present and
non-empty (truthy), else `b`. -/
def jsOrStr (a : Option JStr) (b : JStr) : JStr :=
  match a with
  | some s => if s.isEmpty then b else s
  | none => b

/-- `fetchDocumentSummary` of main.js. It resolves with `none` when no
document is open; otherwise it reads the document's metadata and then
queries `batchPlay` for the layer count inside a `try`/`catch`, so a
`batchPlay` failure (or a missing/typeless field) only leaves
`numberOfLayers` absent. Failures of the unguarded host reads
(`app.documents.length`, `app.activeDocument` and its getters) reject
the whole call. -/
def fetchDocumentSummary (h : GenHost) : Except JStr (Option DocSummary) := do
  let len ← h.documentsLength
  if len = 0 then
    return none
  let doc ← h.activeDocument
  return some {
    name := jsOrStr doc.title (jsOrStr doc.name "Untitled".data)
    widthPx := doc.width
    heightPx := doc.height
    resolution := doc.resolution
    numberOfLayers :=
      match h.batchPlay with
      | Except.ok (some d) => d.numberOfLayers
      | _ => none }

/-- JS `checked ? "Yes" : "No"`. -/
def boolLabel (b : Bool) : JStr :=
  if b then "Yes".data else "No".data

/-- The `text` template of `simulatePreview`, built from the element
values it reads (synchronously, at invocation) and the prompt. -/
def previewText (e : Elements) (prompt : JStr) : JStr :=
  "Model: ".data ++ (MODEL_LABELS e.modelPicker).getD "Custom model".data
    ++ "\nWorkflow: ".data ++ (WORKFLOW_LABELS e.workflowPicker).getD "Workflow".data
    ++ "\nStrength: ".data ++ (toString e.strengthSlider).data ++ "%".data
    ++ "\nPreserve Subject: ".data ++ boolLabel e.seamlessSwitch
    ++ "\nRespect Mask: ".data ++ boolLabel e.maskSwitch
    ++ "\nPrompt: ".data ++ prompt
    ++ "\n".data ++ e.documentInfo

/-- The SVG template text before the `escapeHtml(text)` interpolation
point. -/
def svgHead : JStr :=
  ("<svg xmlns='http://www.w3.org/2000/svg' width='800' height='600'>\n    <defs>\n      <linearGradient id='bg' x1='0%' y1='0%' x2='100%' y2='100%'>\n        <stop offset='0%' stop-color='#1473E6'/>\n        <stop offset='100%' stop-color='#5C6BC0'/>\n      </linearGradient>\n    </defs>\n    <rect width='800' height='600' rx='32' fill='url(#bg)' />\n    <foreignObject x='32' y='32' width='736' height='536'>\n      <body xmlns='http://www.w3.org/1999/xhtml' style='color:white;font-family:Arial,Helvetica,sans-serif;'>\n        <h2 style='margin:0 0 12px 0;'>AI Preview</h2>\n        <pre style='white-space:pre-wrap;font-size:20px;line-height:1.4;'>").data

/-- The SVG template text after the interpolation point. -/
def svgTail : JStr :=
  "</pre>\n      </body>\n    </foreignObject>\n  </svg>".data

/-- The `svg` template literal of `simulatePreview`. -/
def buildSvg (e : Elements) (prompt : JStr) : JStr :=
  svgHead ++ escapeHtml (previewText e prompt) ++ svgTail

/-- `simulatePreview` of main.js: the data-URL string its promise
resolves with after the simulated 500 ms delay. The promise executor
only ever calls `resolve`, so in the embedding the function is total:
preview generation cannot fail. -/
def simulatePreview (e : Elements) (prompt : JStr) : JStr :=
  "data:image/svg+xml,".data ++ uriEncodeFull (buildSvg e prompt)

/-- The `dataset.status` tag `setStatus` stores next to the message. -/
inductive StatusKind
  | warning
  | pending
  | success
  | error
deriving DecidableEq, Repr

/-- One `setStatus` call: the status tag and the message text. -/
structure Status where
  kind : StatusKind
  message : JStr
deriving DecidableEq, Repr

/-- The record `state.preview` holds after a successful generation. -/
structure PreviewRecord where
  url : JStr
  prompt : JStr
  model : JStr
  workflow : JStr
  strength : Nat
  preserveSubject : Bool
  respectMask : Bool
  documentSummary : Option DocSummary
deriving DecidableEq, Repr

/-- The module-level mutable `state` of main.js. -/
structure PluginState where
  preview : Option PreviewRecord
deriving DecidableEq, Repr

/-- The collaborators a generate request can invoke. -/
inductive Collab
  | inspector
  | generator
deriving DecidableEq, Repr

/-- The observable outcome of one `handleGenerate` run: the state after
the run, the final `setStatus` call, the collaborators invoked, and
whether `setProcessing(true)` ran (i.e. the panel left the idle
state). -/
structure GenResult where
  state : PluginState
  status : Status
  calls : List Collab
  startedProcessing : Bool
deriving DecidableEq, Repr

/-- `handleGenerate` of main.js. `e0` is the DOM state at click time:
the prompt is read and trimmed before anything else, and
`simulatePreview` reads its element values synchronously when invoked.
`e1` is the DOM state when `Promise.all` settles: the assignment to
`state.preview` reads `modelPicker`, `workflowPicker`,
`strengthSlider`, `seamlessSwitch` and `maskSwitch` only then, and
`setProcessing` leaves those inputs enabled while the request is in
flight. `Promise.all` rejects when `fetchDocumentSummary` rejects
(`simulatePreview` always resolves), in which case the `catch` branch
leaves `state.preview` untouched. -/
def handleGenerate (e0 e1 : Elements) (h : GenHost) (st : PluginState) : GenResult :=
  let prompt := jsTrim e0.promptInput
  if prompt.isEmpty then
    { state := st
      status := ⟨StatusKind.warning, "Please enter a prompt before generating a preview.".data⟩
      calls := []
      startedProcessing := false }
  else
    match fetchDocumentSummary h with
    | Except.error msg =>
      { state := st
        status := ⟨StatusKind.error, "Preview failed: ".data ++ msg⟩
        calls := [Collab.inspector, Collab.generator]
        startedProcessing := true }
    | Except.ok documentSummary =>
      { state := { preview := some {
          url := simulatePreview e0 prompt
          prompt := prompt
          model := e1.modelPicker
          workflow := e1.workflowPicker
          strength := e1.strengthSlider
          preserveSubject := e1.seamlessSwitch
          respectMask := e1.maskSwitch
          documentSummary := documentSummary } }
        status := ⟨StatusKind.success,
          "Preview generated. Apply to Photoshop to insert a placeholder layer.".data⟩
        calls := [Collab.inspector, Collab.generator]
        startedProcessing := true }

/-- The host environment an apply request runs against:
`app.documents.length`, and the outcome of the `core.executeAsModal`
call (an `Except.error` carries the thrown error's `message`). -/
structure ApplyHost where
  documentsLength : Nat
  modalResult : Except JStr Unit

/-- One completed scoped, undo-grouped host mutation: the
`executeAsModal` command name and the name of the layer it created. -/
structure HostMutation where
  commandName : JStr
  layerName : JStr
deriving DecidableEq, Repr

/-- The observable outcome of one `handleApply` run: the state after
the run, the final `setStatus` call, the completed host mutations, how
often the document-summary readout was refreshed afterwards
(`updateDocumentInfo` in the `finally` block), and whether
`setProcessing(true)` ran. -/
structure ApplyResult where
  state : PluginState
  status : Status
  mutations : List HostMutation
  refreshes : Nat
  startedProcessing : Bool

/-- The layer name `handleApply` builds:
`` `${MODEL_LABELS[state.preview.model] || "AI"} • ${state.preview.workflow}` ``
— the model label (generic fallback `"AI"`) joined with the raw
workflow key, not the workflow label. -/
def applyLayerName (p : PreviewRecord) : JStr :=
  (MODEL_LABELS p.model).getD "AI".data ++ " • ".data ++ p.workflow

/-- `handleApply` of main.js. Without a held preview, or without an
open document, it returns after a warning `setStatus`, before
`setProcessing` and before the `try` block. Otherwise it performs the
single `executeAsModal`-scoped `createLayer` mutation and, in the
`finally` block, refreshes the document summary exactly once whatever
the modal outcome was. `state.preview` is never written. -/
def handleApply (h : ApplyHost) (st : PluginState) : ApplyResult :=
  match st.preview with
  | none =>
    { state := st
      status := ⟨StatusKind.warning, "Generate a preview before applying.".data⟩
      mutations := []
      refreshes := 0
      startedProcessing := false }
  | some p =>
    if h.documentsLength = 0 then
      { state := st
        status := ⟨StatusKind.warning, "Open a Photoshop document to apply the AI result.".data⟩
        mutations := []
        refreshes := 0
        startedProcessing := false }
    else
      match h.modalResult with
      | Except.ok _ =>
        { state := st
          status := ⟨StatusKind.success,
            "Placeholder layer created. Replace its contents with the generated pixels from your service.".data⟩
          mutations := [⟨"AI Placeholder Layer".data, applyLayerName p⟩]
          refreshes := 1
          startedProcessing := true }
      | Except.error msg =>
        { state := st
          status := ⟨StatusKind.error, "Could not apply result: ".data ++ msg⟩
          mutations := []
          refreshes := 1
          startedProcessing := true }

/-- A concrete DOM input state: the scenario of spec §8 (prompt
"a red fox in snow", model grok, workflow edit, strength 40). -/
def sampleElements : Elements :=
  { promptInput := "a red fox in snow".data
    modelPicker := "grok".data
    workflowPicker := "edit".data
    strengthSlider := 40
    seamlessSwitch := true
    maskSwitch := false
    documentInfo := "No Photoshop document detected.".data }

/-- A concrete open document as the host exposes it. -/
def sampleDoc : HostDocInfo :=
  { title := some "Poster".data
    name := none
    resolution := some 72
    width := some 1024
    height := some 768 }

/-- A concrete host with one open document and a working descriptor
query. -/
def sampleHostOpen : GenHost :=
  { documentsLength := Except.ok 1
    activeDocument := Except.ok sampleDoc
    batchPlay := Except.ok (some { numberOfLayers := some 3 }) }

/-- A concrete host with no open document. -/
def sampleHostNoDoc : GenHost :=
  { documentsLength := Except.ok 0
    activeDocument := Except.ok sampleDoc
    batchPlay := Except.ok none }

/-- A concrete host whose unguarded document read throws. -/
def sampleHostFail : GenHost :=
  { documentsLength := Except.error "host gone".data
    activeDocument := Except.error "host gone".data
    batchPlay := Except.error "host gone".data }

/-- The concrete head of the preview text for model grok, workflow
edit, strength 40: everything before the first input-dependent
fragment. -/
def previewTextHead : JStr :=
  "Model: xAI Grok\nWorkflow: Edit current selection\nStrength: 40%\nPreserve Subject: ".data

/-- The input-dependent tail of the preview text after
`previewTextHead`, right-associated. -/
def previewTextTail (e : Elements) (prompt : JStr) : JStr :=
  boolLabel e.seamlessSwitch ++ ("\nRespect Mask: ".data ++ (boolLabel e.maskSwitch ++
    ("\nPrompt: ".data ++ (prompt ++ ("\n".data ++ e.documentInfo)))))

/-- A concrete held preview record (grok / edit). -/
def samplePreview : PreviewRecord :=
  { url := []
    prompt := "a red fox in snow".data
    model := "grok".data
    workflow := "edit".data
    strength := 40
    preserveSubject := true
    respectMask := false
    documentSummary := none }



/-- A single-character global replace distributes over append. -/
theorem jsReplaceChar_append (c : Char) (rep a b : JStr) :
    jsReplaceChar c rep (a ++ b) = jsReplaceChar c rep a ++ jsReplaceChar c rep b := by
  simp [jsReplaceChar]

/-- Head expansion of the five chained replaces of `escapeHtml`. -/
theorem escapeHtml_cons (x : Char) (s : JStr) :
    escapeHtml (x :: s) = escCharHtml x ++ escapeHtml s := by
  by_cases h1 : x = '&'
  · subst h1; rfl
  by_cases h2 : x = '<'
  · subst h2; rfl
  by_cases h3 : x = '>'
  · subst h3; rfl
  by_cases h4 : x = '\"'
  · subst h4; rfl
  by_cases h5 : x = '\''
  · subst h5; rfl
  · simp [escapeHtml, jsReplaceChar, escCharHtml, h1, h2, h3, h4, h5]

/-- The chained replaces of `escapeHtml` act as one single pass: the
ampersand pass runs first, and no replacement text contains a character
a later pass rewrites. -/
theorem escapeHtml_eq_flatMap (s : JStr) : escapeHtml s = s.flatMap escCharHtml := by
  induction s with
  | nil => rfl
  | cons x s ih => rw [List.flatMap_cons, ← ih, escapeHtml_cons]

theorem unescape_nil : unescapeEntities [] = [] := by
  rw [unescapeEntities.eq_def]

theorem unescape_cons_ne (x : Char) (rest : JStr) (hx : x ≠ '&') :
    unescapeEntities (x :: rest) = x :: unescapeEntities rest := by
  rw [unescapeEntities.eq_def]
  simp [hx]

theorem unescape_amp (r : JStr) :
    unescapeEntities ('&' :: 'a' :: 'm' :: 'p' :: ';' :: r) = '&' :: unescapeEntities r := by
  rw [unescapeEntities.eq_def]
  simp [List.isPrefixOf]

theorem unescape_lt (r : JStr) :
    unescapeEntities ('&' :: 'l' :: 't' :: ';' :: r) = '<' :: unescapeEntities r := by
  rw [unescapeEntities.eq_def]
  simp [List.isPrefixOf]

theorem unescape_gt (r : JStr) :
    unescapeEntities ('&' :: 'g' :: 't' :: ';' :: r) = '>' :: unescapeEntities r := by
  rw [unescapeEntities.eq_def]
  simp [List.isPrefixOf]

theorem unescape_quot (r : JStr) :
    unescapeEntities ('&' :: 'q' :: 'u' :: 'o' :: 't' :: ';' :: r) = '\"' :: unescapeEntities r := by
  rw [unescapeEntities.eq_def]
  simp [List.isPrefixOf]

theorem unescape_apos (r : JStr) :
    unescapeEntities ('&' :: '#' :: '0' :: '3' :: '9' :: ';' :: r) = '\'' :: unescapeEntities r := by
  rw [unescapeEntities.eq_def]
  simp [List.isPrefixOf]

/-- The entity unescaper inverts the single-pass escape. -/
theorem unescape_flatMap (s : JStr) : unescapeEntities (s.flatMap escCharHtml) = s := by
  induction s with
  | nil => exact unescape_nil
  | cons x s ih =>
    rw [List.flatMap_cons]
    by_cases h1 : x = '&'
    · subst h1
      show unescapeEntities ('&' :: 'a' :: 'm' :: 'p' :: ';' :: s.flatMap escCharHtml) = _
      rw [unescape_amp, ih]
    by_cases h2 : x = '<'
    · subst h2
      show unescapeEntities ('&' :: 'l' :: 't' :: ';' :: s.flatMap escCharHtml) = _
      rw [unescape_lt, ih]
    by_cases h3 : x = '>'
    · subst h3
      show unescapeEntities ('&' :: 'g' :: 't' :: ';' :: s.flatMap escCharHtml) = _
      rw [unescape_gt, ih]
    by_cases h4 : x = '\"'
    · subst h4
      show unescapeEntities ('&' :: 'q' :: 'u' :: 'o' :: 't' :: ';' :: s.flatMap escCharHtml) = _
      rw [unescape_quot, ih]
    by_cases h5 : x = '\''
    · subst h5
      show unescapeEntities ('&' :: '#' :: '0' :: '3' :: '9' :: ';' :: s.flatMap escCharHtml) = _
      rw [unescape_apos, ih]
    · have hx : escCharHtml x = [x] := by simp [escCharHtml, h1, h2, h3, h4, h5]
      rw [hx, List.cons_append, List.nil_append, unescape_cons_ne x _ h1, ih]

/-- C4: escaping with `escapeHtml` followed by standard entity
unescaping of `&amp; &lt; &gt; &quot; &#039;` returns the original
string, for every input string (in particular for inputs that already
contain entity-like sequences such as `&lt;`), and `escapeHtml` escapes
all five characters `& < > \" '`. -/
theorem escapeHtml_roundTrip :
    (∀ s : JStr, unescapeEntities (escapeHtml s) = s) ∧
      escapeHtml "&<>\"'".data = "&amp;&lt;&gt;&quot;&#039;".data :=
  ⟨fun s => by rw [escapeHtml_eq_flatMap]; exact unescape_flatMap s, by decide⟩

/-- The boolean substring search agrees with `ContainsStr`. -/
theorem occursB_iff (pat : JStr) : ∀ s, occursB pat s = true ↔ ContainsStr s pat := by
  intro s
  induction s with
  | nil =>
    cases pat with
    | nil => exact ⟨fun _ => ⟨[], [], rfl⟩, fun _ => rfl⟩
    | cons p ps =>
      constructor
      · intro hfalse; cases hfalse
      · rintro ⟨a, b, hab⟩; simp at hab
  | cons c rest ih =>
    constructor
    · intro hocc
      rcases Bool.or_eq_true_iff.mp hocc with hpre | htail
      · obtain ⟨t, ht⟩ := List.isPrefixOf_iff_prefix.mp hpre
        exact ⟨[], t, by simp [← ht]⟩
      · obtain ⟨a, b, hab⟩ := ih.mp htail
        exact ⟨c :: a, b, by simp [hab]⟩
    · rintro ⟨a, b, hab⟩
      show (pat.isPrefixOf (c :: rest) || occursB pat rest) = true
      cases a with
      | nil =>
        apply Bool.or_eq_true_iff.mpr
        left
        rw [List.isPrefixOf_iff_prefix]
        exact ⟨b, by simpa using hab.symm⟩
      | cons a0 a2 =>
        apply Bool.or_eq_true_iff.mpr
        right
        simp only [List.cons_append, List.cons.injEq] at hab
        exact ih.mpr ⟨a2, b, hab.2⟩

/-- C3: a generate request whose prompt is empty after JS trimming
invokes neither the Document Inspector nor the Preview Generator,
leaves the processing flag off (the panel stays idle) and the Preview
Record unchanged, and surfaces a warning status. -/
theorem generate_emptyPrompt_idle (e0 e1 : Elements) (h : GenHost) (st : PluginState)
    (hp : jsTrim e0.promptInput = []) :
    (handleGenerate e0 e1 h st).calls = [] ∧
      (handleGenerate e0 e1 h st).state = st ∧
      (handleGenerate e0 e1 h st).startedProcessing = false ∧
      (handleGenerate e0 e1 h st).status.kind = StatusKind.warning := by
  simp [handleGenerate, hp]

/-- Witness for C3 at a whitespace-only prompt. -/
theorem generate_emptyPrompt_idle_witness :
    jsTrim "  \t\n".data = [] ∧
      ((handleGenerate { sampleElements with promptInput := "  \t\n".data } sampleElements
          sampleHostOpen ⟨none⟩).calls = [] ∧
        (handleGenerate { sampleElements with promptInput := "  \t\n".data } sampleElements
          sampleHostOpen ⟨none⟩).state = ⟨none⟩ ∧
        (handleGenerate { sampleElements with promptInput := "  \t\n".data } sampleElements
          sampleHostOpen ⟨none⟩).startedProcessing = false ∧
        (handleGenerate { sampleElements with promptInput := "  \t\n".data } sampleElements
          sampleHostOpen ⟨none⟩).status.kind = StatusKind.warning) :=
  ⟨by decide, generate_emptyPrompt_idle _ _ _ _ (by decide)⟩

/-- C1 (amended): after a successful generate, the stored record's
prompt (and the artifact URL) are fixed by the click-time DOM state,
but model, workflow, strength and the two toggles are read only when
the concurrent calls settle, so the stored snapshot takes those values
from the settle-time DOM state — in-flight edits to them do alter the
stored snapshot. -/
theorem generate_snapshot_settleTime (e0 e1 : Elements) (h : GenHost) (st : PluginState)
    (ds : Option DocSummary) (hd : fetchDocumentSummary h = Except.ok ds)
    (hp : jsTrim e0.promptInput ≠ []) :
    (handleGenerate e0 e1 h st).state.preview = some {
      url := simulatePreview e0 (jsTrim e0.promptInput)
      prompt := jsTrim e0.promptInput
      model := e1.modelPicker
      workflow := e1.workflowPicker
      strength := e1.strengthSlider
      preserveSubject := e1.seamlessSwitch
      respectMask := e1.maskSwitch
      documentSummary := ds } := by
  simp [handleGenerate, hd, hp]

/-- Witness for the amended C1: the settle-time DOM differs from the
click-time DOM in the model picker, and the stored snapshot follows the
settle-time value. -/
theorem generate_snapshot_settleTime_witness :
    fetchDocumentSummary sampleHostNoDoc = Except.ok none ∧
      jsTrim sampleElements.promptInput ≠ [] ∧
      (handleGenerate sampleElements { sampleElements with modelPicker := "meta".data }
          sampleHostNoDoc ⟨none⟩).state.preview = some {
        url := simulatePreview sampleElements (jsTrim sampleElements.promptInput)
        prompt := jsTrim sampleElements.promptInput
        model := ({ sampleElements with modelPicker := "meta".data } : Elements).modelPicker
        workflow := ({ sampleElements with modelPicker := "meta".data } : Elements).workflowPicker
        strength := ({ sampleElements with modelPicker := "meta".data } : Elements).strengthSlider
        preserveSubject := ({ sampleElements with modelPicker := "meta".data } : Elements).seamlessSwitch
        respectMask := ({ sampleElements with modelPicker := "meta".data } : Elements).maskSwitch
        documentSummary := none } :=
  ⟨rfl, by decide,
    generate_snapshot_settleTime sampleElements
      { sampleElements with modelPicker := "meta".data } sampleHostNoDoc ⟨none⟩ none rfl
      (by decide)⟩

/-- C1 counterexample: with click-time model "grok" and an in-flight
edit to "meta", the stored snapshot's model is "meta", not the
click-time "grok" — the claim that the stored snapshot equals the
click-time snapshot fails. -/
theorem generate_snapshot_cex :
    (handleGenerate sampleElements { sampleElements with modelPicker := "meta".data }
        sampleHostNoDoc ⟨none⟩).state.preview.map PreviewRecord.model = some "meta".data ∧
      sampleElements.modelPicker = "grok".data ∧
      ("meta".data : JStr) ≠ "grok".data :=
  ⟨by decide, by decide, by decide⟩

/-- C6: when the Document Inspector call of a generate attempt fails
(the only failable one of the two concurrent calls), the Preview Record
is left exactly as it was and an error status derived from the
failure's message is surfaced. -/
theorem generate_failure_keepsPreview (e0 e1 : Elements) (h : GenHost) (st : PluginState)
    (msg : JStr) (hf : fetchDocumentSummary h = Except.error msg)
    (hp : jsTrim e0.promptInput ≠ []) :
    (handleGenerate e0 e1 h st).state = st ∧
      (handleGenerate e0 e1 h st).status =
        ⟨StatusKind.error, "Preview failed: ".data ++ msg⟩ := by
  simp [handleGenerate, hf, hp]

/-- Witness for C6 at a host whose document read throws, with a stale
preview held. -/
theorem generate_failure_keepsPreview_witness :
    fetchDocumentSummary sampleHostFail = Except.error "host gone".data ∧
      jsTrim sampleElements.promptInput ≠ [] ∧
      (handleGenerate sampleElements sampleElements sampleHostFail
          ⟨some samplePreview⟩).state = ⟨some samplePreview⟩ ∧
      (handleGenerate sampleElements sampleElements sampleHostFail
          ⟨some samplePreview⟩).status =
        ⟨StatusKind.error, "Preview failed: ".data ++ "host gone".data⟩ := by
  refine ⟨rfl, by decide, ?_⟩
  exact generate_failure_keepsPreview sampleElements sampleElements sampleHostFail
    ⟨some samplePreview⟩ "host gone".data rfl (by decide)

/-- C10: `simulatePreview` is total in the embedding (its promise
executor only ever resolves), so a generate attempt with a valid prompt
surfaces an error status exactly when the Document Inspector call
fails. -/
theorem generate_error_iff_inspectorFails (e0 e1 : Elements) (h : GenHost) (st : PluginState)
    (hp : jsTrim e0.promptInput ≠ []) :
    (handleGenerate e0 e1 h st).status.kind = StatusKind.error ↔
      ∃ msg, fetchDocumentSummary h = Except.error msg := by
  cases hres : fetchDocumentSummary h with
  | error msg => simp [handleGenerate, hres, hp]
  | ok ds => simp [handleGenerate, hres, hp]

/-- Witness for C10: with a working host the status is not an error,
and with a failing inspector it is. -/
theorem generate_error_iff_inspectorFails_witness :
    jsTrim sampleElements.promptInput ≠ [] ∧
      ((handleGenerate sampleElements sampleElements sampleHostOpen ⟨none⟩).status.kind =
          StatusKind.error ↔
        ∃ msg, fetchDocumentSummary sampleHostOpen = Except.error msg) :=
  ⟨by decide,
    generate_error_iff_inspectorFails sampleElements sampleElements sampleHostOpen ⟨none⟩
      (by decide)⟩

/-- C5: an apply request without a held Preview Record, or without an
open host document, is rejected with a warning, attempts no host
mutation, performs no refresh, never leaves the idle state, and leaves
the session state (the Preview Record in particular) unchanged. -/
theorem apply_invalid_rejected (h : ApplyHost) (st : PluginState)
    (hv : st.preview = none ∨ h.documentsLength = 0) :
    (handleApply h st).state = st ∧
      (handleApply h st).mutations = [] ∧
      (handleApply h st).refreshes = 0 ∧
      (handleApply h st).startedProcessing = false ∧
      (handleApply h st).status.kind = StatusKind.warning := by
  rcases hv with hv | hv
  · simp [handleApply, hv]
  · cases hp : st.preview with
    | none => simp [handleApply, hp]
    | some p => simp [handleApply, hp, hv]

/-- Witness for C5: apply with a held preview but no open document. -/
theorem apply_invalid_rejected_witness :
    ((⟨some samplePreview⟩ : PluginState).preview = none ∨
        (({ documentsLength := 0, modalResult := Except.ok () } : ApplyHost).documentsLength = 0)) ∧
      (handleApply { documentsLength := 0, modalResult := Except.ok () }
          ⟨some samplePreview⟩).state = ⟨some samplePreview⟩ ∧
      (handleApply { documentsLength := 0, modalResult := Except.ok () }
          ⟨some samplePreview⟩).mutations = [] ∧
      (handleApply { documentsLength := 0, modalResult := Except.ok () }
          ⟨some samplePreview⟩).refreshes = 0 ∧
      (handleApply { documentsLength := 0, modalResult := Except.ok () }
          ⟨some samplePreview⟩).startedProcessing = false ∧
      (handleApply { documentsLength := 0, modalResult := Except.ok () }
          ⟨some samplePreview⟩).status.kind = StatusKind.warning := by
  refine ⟨Or.inr rfl, ?_⟩
  have h := apply_invalid_rejected { documentsLength := 0, modalResult := Except.ok () }
    ⟨some samplePreview⟩ (Or.inr rfl)
  exact ⟨h.1, h.2.1, h.2.2.1, h.2.2.2.1, h.2.2.2.2⟩

/-- C8: an apply request that passes validation (held preview, open
document) refreshes the Document Summary readout exactly once, whatever
the outcome of the host mutation was. -/
theorem apply_refresh_exactlyOnce (h : ApplyHost) (st : PluginState) (p : PreviewRecord)
    (hp : st.preview = some p) (hd : h.documentsLength ≠ 0) :
    (handleApply h st).refreshes = 1 := by
  cases hm : h.modalResult with
  | ok u => simp [handleApply, hp, hd, hm]
  | error msg => simp [handleApply, hp, hd, hm]

/-- Witness for C8 on a failing host mutation: the refresh still runs
exactly once. -/
theorem apply_refresh_exactlyOnce_witness :
    (⟨some samplePreview⟩ : PluginState).preview = some samplePreview ∧
      ({ documentsLength := 1, modalResult := Except.error "modal failed".data } : ApplyHost).documentsLength ≠ 0 ∧
      (handleApply { documentsLength := 1, modalResult := Except.error "modal failed".data }
          ⟨some samplePreview⟩).refreshes = 1 :=
  ⟨rfl, by decide,
    apply_refresh_exactlyOnce { documentsLength := 1, modalResult := Except.error "modal failed".data }
      ⟨some samplePreview⟩ samplePreview rfl (by decide)⟩

/-- C2 (amended): an apply request that passes validation and whose
modal host call succeeds performs exactly one scoped, undo-grouped
mutation: it creates one layer whose name joins the model display label
(with the generic fallback "AI") and the raw workflow key of the
Preview Record — the workflow display label is not used. -/
theorem apply_oneMutation_modelLabel_rawWorkflow (h : ApplyHost) (st : PluginState)
    (p : PreviewRecord) (hp : st.preview = some p) (hd : h.documentsLength ≠ 0)
    (hm : h.modalResult = Except.ok ()) :
    (handleApply h st).mutations =
      [{ commandName := "AI Placeholder Layer".data
         layerName := (MODEL_LABELS p.model).getD "AI".data ++ " • ".data ++ p.workflow }] := by
  simp [handleApply, hp, hd, hm, applyLayerName]

/-- Witness for the amended C2 at the grok/edit preview. -/
theorem apply_oneMutation_modelLabel_rawWorkflow_witness :
    (⟨some samplePreview⟩ : PluginState).preview = some samplePreview ∧
      ({ documentsLength := 1, modalResult := Except.ok () } : ApplyHost).documentsLength ≠ 0 ∧
      (handleApply { documentsLength := 1, modalResult := Except.ok () }
          ⟨some samplePreview⟩).mutations =
        [{ commandName := "AI Placeholder Layer".data
           layerName := (MODEL_LABELS samplePreview.model).getD "AI".data ++ " • ".data ++
             samplePreview.workflow }] :=
  ⟨rfl, by decide,
    apply_oneMutation_modelLabel_rawWorkflow { documentsLength := 1, modalResult := Except.ok () }
      ⟨some samplePreview⟩ samplePreview rfl (by decide) rfl⟩

/-- C2 counterexample: for the grok/edit preview the created layer is
named "xAI Grok • edit"; the workflow display label of "edit" is
"Edit current selection", and it does not occur in the layer name, so
the name is not derived from the workflow label as the claim states. -/
theorem apply_layerName_cex :
    (handleApply { documentsLength := 1, modalResult := Except.ok () }
        ⟨some samplePreview⟩).mutations =
      [{ commandName := "AI Placeholder Layer".data, layerName := "xAI Grok • edit".data }] ∧
      WORKFLOW_LABELS samplePreview.workflow = some "Edit current selection".data ∧
      ¬ ContainsStr "xAI Grok • edit".data "Edit current selection".data := by
  refine ⟨by decide, by decide, fun hc => ?_⟩
  have := (occursB_iff "Edit current selection".data "xAI Grok • edit".data).mpr hc
  exact absurd this (by decide)

/-- Binding a successful `Except` computation runs its continuation. -/
theorem bind_ok_eq {ε α β : Type} (x : α) (f : α → Except ε β) :
    (Except.ok x >>= f) = f x := rfl

/-- C7: when the unguarded host reads succeed, `fetchDocumentSummary`
resolves with `none` exactly when no document is open and with a
summary object otherwise, and a failure of the layer-count descriptor
sub-query only clears the `numberOfLayers` field — it neither rejects
the call nor turns the result into `none`. -/
theorem fetchDocumentSummary_contract (h : GenHost) (n : Nat) (d : HostDocInfo)
    (hl : h.documentsLength = Except.ok n) (hd : h.activeDocument = Except.ok d) :
    ((fetchDocumentSummary h = Except.ok none) ↔ n = 0) ∧
      (n ≠ 0 → ∃ s, fetchDocumentSummary h = Except.ok (some s)) ∧
      (∀ e, fetchDocumentSummary { h with batchPlay := Except.error e } =
        Except.map (Option.map fun s => { s with numberOfLayers := none })
          (fetchDocumentSummary h)) := by
  by_cases hn : n = 0
  · subst hn
    simp [fetchDocumentSummary, hl, hd, bind_ok_eq, Except.map, Pure.pure, Except.pure]
  · refine ⟨?_, ?_, ?_⟩
    · simp [fetchDocumentSummary, hl, hd, hn, bind_ok_eq]
    · intro _
      refine ⟨{ name := jsOrStr d.title (jsOrStr d.name "Untitled".data)
                widthPx := d.width
                heightPx := d.height
                resolution := d.resolution
                numberOfLayers :=
                  match h.batchPlay with
                  | Except.ok (some dd) => dd.numberOfLayers
                  | _ => none }, ?_⟩
      simp [fetchDocumentSummary, hl, hd, hn, bind_ok_eq]
    · intro e
      cases hb : h.batchPlay <;>
        simp [fetchDocumentSummary, hl, hd, hn, hb, bind_ok_eq, Except.map]

/-- Witness for C7 at a host with one open document, evaluating both
the open-document case and the failing-descriptor case. -/
theorem fetchDocumentSummary_contract_witness :
    ((fetchDocumentSummary sampleHostOpen = Except.ok none) ↔ 1 = 0) ∧
      (fetchDocumentSummary { sampleHostOpen with batchPlay := Except.error "boom".data } =
        Except.map (Option.map fun s => { s with numberOfLayers := none })
          (fetchDocumentSummary sampleHostOpen)) :=
  ⟨(fetchDocumentSummary_contract sampleHostOpen 1 sampleDoc rfl rfl).1,
    (fetchDocumentSummary_contract sampleHostOpen 1 sampleDoc rfl rfl).2.2 "boom".data⟩

theorem char_toNat_lt (c : Char) : c.toNat < 0x110000 := by
  rcases c.valid with h | ⟨h1, h2⟩
  · exact Nat.lt_trans h (by omega)
  · exact h2

theorem utf8Bytes_lt (n : Nat) (hn : n < 0x110000) : ∀ b ∈ utf8Bytes n, b < 256 := by
  intro b hb
  unfold utf8Bytes at hb
  split at hb
  · simp at hb; omega
  · split at hb
    · simp at hb; rcases hb with h | h <;> omega
    · split at hb
      · simp at hb; rcases hb with h | h | h <;> omega
      · simp at hb; rcases hb with h | h | h | h <;> omega

theorem uriKeep_ascii (c : Char) (hc : uriKeep c = true) : c.toNat < 0x80 ∧ c ≠ '%' := by
  simp [uriKeep, isUriUnreserved] at hc
  obtain ⟨h1, -⟩ := hc
  constructor
  · rcases h1 with (((((((((h|h)|h)|h)|h)|h)|h)|h)|h)|h)|h <;> omega
  · intro he
    subst he
    have h37 : ('%').toNat = 37 := rfl
    rcases h1 with (((((((((h|h)|h)|h)|h)|h)|h)|h)|h)|h)|h <;> omega

theorem hexDigitUpper_props (m : Nat) (hm : m < 16) :
    hexNat (hexDigitUpper m) = m ∧ hexDigitUpper m ≠ '\'' ∧
      hexDigitUpper m ≠ '(' ∧ hexDigitUpper m ≠ ')' := by
  interval_cases m <;> exact ⟨by decide, by decide, by decide, by decide⟩

theorem jsReplaceChar_pct (c : Char) (rep : JStr)
    (hq : c = '\'' ∨ c = '(' ∨ c = ')') (bs : List Nat) (hbs : ∀ b ∈ bs, b < 256) :
    jsReplaceChar c rep (bs.flatMap pctTriple) = bs.flatMap pctTriple := by
  induction bs with
  | nil => rfl
  | cons b bs ih =>
    have hb : b < 256 := hbs b (List.mem_cons_self b bs)
    have hhi := hexDigitUpper_props (b / 16) (by omega)
    have hlo := hexDigitUpper_props (b % 16) (by omega)
    rw [List.flatMap_cons, jsReplaceChar_append, ih (fun x hx => hbs x (List.mem_cons_of_mem b hx))]
    have hpct : jsReplaceChar c rep (pctTriple b) = pctTriple b := by
      have h1 : '%' ≠ c := by rcases hq with h | h | h <;> subst h <;> decide
      have h2 : hexDigitUpper (b / 16) ≠ c := by
        rcases hq with h | h | h <;> subst h
        · exact hhi.2.1
        · exact hhi.2.2.1
        · exact hhi.2.2.2
      have h3 : hexDigitUpper (b % 16) ≠ c := by
        rcases hq with h | h | h <;> subst h
        · exact hlo.2.1
        · exact hlo.2.2.1
        · exact hlo.2.2.2
      simp [jsReplaceChar, pctTriple, h1, h2, h3]
    rw [hpct]

theorem uriEncodeFull_cons (x : Char) (s : JStr) :
    uriEncodeFull (x :: s) = encUriChar x ++ uriEncodeFull s := by
  have hx := char_toNat_lt x
  by_cases h1 : x = '\''
  · subst h1; rfl
  by_cases h2 : x = '('
  · subst h2; rfl
  by_cases h3 : x = ')'
  · subst h3; rfl
  by_cases hu : isUriUnreserved x = true
  · have hk : uriKeep x = true := by simp [uriKeep, hu, h1, h2, h3]
    have hec : encodeURIComponent (x :: s) = [x] ++ encodeURIComponent s := by
      simp [encodeURIComponent, hu]
    have hE : encUriChar x = [x] := by simp [encUriChar, hk]
    simp only [uriEncodeFull, hec, jsReplaceChar_append, hE]
    congr 1
    simp [jsReplaceChar, h1, h2, h3]
  · have hk : uriKeep x = false := by simp [uriKeep, hu]
    have hbs := utf8Bytes_lt x.toNat hx
    have hec : encodeURIComponent (x :: s) =
        (utf8Bytes x.toNat).flatMap pctTriple ++ encodeURIComponent s := by
      simp [encodeURIComponent, hu]
    have hE : encUriChar x = (utf8Bytes x.toNat).flatMap pctTriple := by
      simp [encUriChar, hk]
    simp only [uriEncodeFull, hec, jsReplaceChar_append, hE]
    congr 1
    rw [jsReplaceChar_pct '\'' "%27".data (Or.inl rfl) _ hbs,
      jsReplaceChar_pct '(' "%28".data (Or.inr (Or.inl rfl)) _ hbs,
      jsReplaceChar_pct ')' "%29".data (Or.inr (Or.inr rfl)) _ hbs]

theorem uriEncodeFull_eq_flatMap (s : JStr) : uriEncodeFull s = s.flatMap encUriChar := by
  induction s with
  | nil => rfl
  | cons x s ih => rw [List.flatMap_cons, ← ih, uriEncodeFull_cons]

theorem pctBytes_cons_ne (c : Char) (rest : JStr) (hc : c ≠ '%') :
    pctBytes (c :: rest) = c.toNat :: pctBytes rest := by
  rw [pctBytes.eq_def]
  simp [hc]

theorem pctBytes_triple (h l : Char) (rest : JStr) :
    pctBytes ('%' :: h :: l :: rest) = (16 * hexNat h + hexNat l) :: pctBytes rest := rfl

theorem pctBytes_flatMap_pct (bs : List Nat) (rest : JStr) (hbs : ∀ b ∈ bs, b < 256) :
    pctBytes (bs.flatMap pctTriple ++ rest) = bs ++ pctBytes rest := by
  induction bs with
  | nil => simp
  | cons b bs ih =>
    have hb : b < 256 := hbs b (List.mem_cons_self b bs)
    have hhi := hexDigitUpper_props (b / 16) (by omega)
    have hlo := hexDigitUpper_props (b % 16) (by omega)
    rw [List.flatMap_cons]
    show pctBytes ('%' :: hexDigitUpper (b / 16) :: hexDigitUpper (b % 16) ::
      (bs.flatMap pctTriple ++ rest)) = _
    rw [pctBytes_triple, hhi.1, hlo.1, ih (fun x hx => hbs x (List.mem_cons_of_mem b hx))]
    congr 1
    omega

theorem pctBytes_enc (c : Char) (rest : JStr) :
    pctBytes (encUriChar c ++ rest) = utf8Bytes c.toNat ++ pctBytes rest := by
  by_cases hk : uriKeep c = true
  · obtain ⟨hlt, hne⟩ := uriKeep_ascii c hk
    have hE : encUriChar c = [c] := by simp [encUriChar, hk]
    rw [hE]
    show pctBytes (c :: rest) = _
    rw [pctBytes_cons_ne c rest hne]
    unfold utf8Bytes
    rw [if_pos hlt]
    simp
  · have hE : encUriChar c = (utf8Bytes c.toNat).flatMap pctTriple := by
      simp [encUriChar, hk]
    rw [hE, pctBytes_flatMap_pct _ _ (utf8Bytes_lt c.toNat (char_toNat_lt c))]

theorem utf8Decode_utf8Bytes (c : Char) (bs : List Nat) :
    utf8Decode (utf8Bytes c.toNat ++ bs) = c :: utf8Decode bs := by
  have hx := char_toNat_lt c
  unfold utf8Bytes
  by_cases h1 : c.toNat < 0x80
  · rw [if_pos h1]
    simp only [List.cons_append, List.nil_append]
    rw [utf8Decode.eq_def]
    simp only []
    rw [if_pos h1, Char.ofNat_toNat]
  · rw [if_neg h1]
    by_cases h2 : c.toNat < 0x800
    · rw [if_pos h2]
      simp only [List.cons_append, List.nil_append]
      rw [utf8Decode.eq_def]
      simp only [List.headD_cons, List.drop_succ_cons, List.drop_zero]
      rw [if_neg (by omega), if_pos (by omega)]
      have harith : (0xC0 + c.toNat / 64 - 0xC0) * 64 + (0x80 + c.toNat % 64 - 0x80) =
          c.toNat := by omega
      rw [harith, Char.ofNat_toNat]
    · rw [if_neg h2]
      by_cases h3 : c.toNat < 0x10000
      · rw [if_pos h3]
        simp only [List.cons_append, List.nil_append]
        rw [utf8Decode.eq_def]
        simp only [List.headD_cons, List.drop_succ_cons, List.drop_zero]
        rw [if_neg (by omega), if_neg (by omega), if_pos (by omega)]
        have harith : (0xE0 + c.toNat / 4096 - 0xE0) * 4096 +
            (0x80 + c.toNat / 64 % 64 - 0x80) * 64 + (0x80 + c.toNat % 64 - 0x80) =
            c.toNat := by omega
        rw [harith, Char.ofNat_toNat]
      · rw [if_neg h3]
        simp only [List.cons_append, List.nil_append]
        rw [utf8Decode.eq_def]
        simp only [List.headD_cons, List.drop_succ_cons, List.drop_zero]
        rw [if_neg (by omega), if_neg (by omega), if_neg (by omega)]
        have harith : (0xF0 + c.toNat / 262144 - 0xF0) * 262144 +
            (0x80 + c.toNat / 4096 % 64 - 0x80) * 4096 +
            (0x80 + c.toNat / 64 % 64 - 0x80) * 64 + (0x80 + c.toNat % 64 - 0x80) =
            c.toNat := by omega
        rw [harith, Char.ofNat_toNat]

theorem pctBytes_flatMap_enc (s : JStr) (rest : JStr) :
    pctBytes (s.flatMap encUriChar ++ rest) =
      s.flatMap (fun c => utf8Bytes c.toNat) ++ pctBytes rest := by
  induction s with
  | nil => simp
  | cons c s ih =>
    rw [List.flatMap_cons, List.flatMap_cons, List.append_assoc, pctBytes_enc, ih,
      List.append_assoc]

theorem utf8Decode_flatMap (s : JStr) (bs : List Nat) :
    utf8Decode (s.flatMap (fun c => utf8Bytes c.toNat) ++ bs) = s ++ utf8Decode bs := by
  induction s with
  | nil => simp
  | cons c s ih =>
    rw [List.flatMap_cons, List.append_assoc, utf8Decode_utf8Bytes, ih, List.cons_append]

theorem pctBytes_ascii (pre rest : JStr) (hpre : ∀ c ∈ pre, c ≠ '%') :
    pctBytes (pre ++ rest) = pre.map Char.toNat ++ pctBytes rest := by
  induction pre with
  | nil => simp
  | cons c pre ih =>
    rw [List.cons_append, pctBytes_cons_ne c _ (hpre c (List.mem_cons_self c pre)),
      ih (fun x hx => hpre x (List.mem_cons_of_mem c hx)), List.map_cons, List.cons_append]

theorem utf8Decode_ascii (pre : JStr) (bs : List Nat) (hpre : ∀ c ∈ pre, c.toNat < 0x80) :
    utf8Decode (pre.map Char.toNat ++ bs) = pre ++ utf8Decode bs := by
  induction pre with
  | nil => simp
  | cons c pre ih =>
    rw [List.map_cons, List.cons_append, utf8Decode.eq_def]
    simp only []
    rw [if_pos (hpre c (List.mem_cons_self c pre)), Char.ofNat_toNat,
      ih (fun x hx => hpre x (List.mem_cons_of_mem c hx)), List.cons_append]

theorem percentDecode_simulatePreview (e : Elements) (prompt : JStr) :
    percentDecode (simulatePreview e prompt) =
      "data:image/svg+xml,".data ++ buildSvg e prompt := by
  unfold simulatePreview percentDecode
  rw [uriEncodeFull_eq_flatMap,
    pctBytes_ascii "data:image/svg+xml,".data _ (by decide),
    utf8Decode_ascii "data:image/svg+xml,".data _ (by decide)]
  congr 1
  have hpnil : pctBytes ([] : JStr) = [] := rfl
  have hunil : utf8Decode ([] : List Nat) = [] := by rw [utf8Decode.eq_def]
  have h0 := pctBytes_flatMap_enc (buildSvg e prompt) []
  rw [hpnil, List.append_nil, List.append_nil] at h0
  rw [h0]
  have h1 := utf8Decode_flatMap (buildSvg e prompt) []
  rw [hunil, List.append_nil, List.append_nil] at h1
  rw [h1]

theorem escapeHtml_append (a b : JStr) :
    escapeHtml (a ++ b) = escapeHtml a ++ escapeHtml b := by
  simp only [escapeHtml_eq_flatMap, List.flatMap_append]

theorem previewText_grokEdit (e : Elements) (prompt : JStr)
    (hm : e.modelPicker = "grok".data) (hw : e.workflowPicker = "edit".data)
    (hs : e.strengthSlider = 40) :
    previewText e prompt = previewTextHead ++ previewTextTail e prompt := by
  unfold previewText previewTextTail
  rw [hm, hw, hs]
  have hml : (MODEL_LABELS "grok".data).getD "Custom model".data = "xAI Grok".data := by decide
  have hwl : (WORKFLOW_LABELS "edit".data).getD "Workflow".data =
      "Edit current selection".data := by decide
  have hts : (toString (40 : Nat)).data = "40".data := by decide
  rw [hml, hwl, hts]
  have hc : "Model: ".data ++ ("xAI Grok".data ++ ("\nWorkflow: ".data ++
      ("Edit current selection".data ++ ("\nStrength: ".data ++ ("40".data ++
      ("%".data ++ "\nPreserve Subject: ".data)))))) = previewTextHead := by decide
  rw [← hc]
  simp only [List.append_assoc]

theorem decoded_structure (e : Elements) (prompt : JStr)
    (hm : e.modelPicker = "grok".data) (hw : e.workflowPicker = "edit".data)
    (hs : e.strengthSlider = 40) :
    percentDecode (simulatePreview e prompt) =
      "data:image/svg+xml,".data ++ (svgHead ++ (previewTextHead ++
        (escapeHtml (previewTextTail e prompt) ++ svgTail))) := by
  rw [percentDecode_simulatePreview]
  unfold buildSvg
  rw [previewText_grokEdit e prompt hm hw hs, escapeHtml_append]
  have hPesc : escapeHtml previewTextHead = previewTextHead := by decide
  rw [hPesc]
  simp only [List.append_assoc]

/-- C9: for model "grok", workflow "edit", strength 40 (any prompt,
toggles and document-info text), the generated preview artifact, once
percent-decoded, contains the literal strings "Model: xAI Grok",
"Workflow: Edit current selection" and "Strength: 40%". -/
theorem previewArtifact_literals (e : Elements) (prompt : JStr)
    (hm : e.modelPicker = "grok".data) (hw : e.workflowPicker = "edit".data)
    (hs : e.strengthSlider = 40) :
    ContainsStr (percentDecode (simulatePreview e prompt)) "Model: xAI Grok".data ∧
      ContainsStr (percentDecode (simulatePreview e prompt))
        "Workflow: Edit current selection".data ∧
      ContainsStr (percentDecode (simulatePreview e prompt)) "Strength: 40%".data := by
  have hdec := decoded_structure e prompt hm hw hs
  refine ⟨⟨"data:image/svg+xml,".data ++ svgHead,
      "\nWorkflow: Edit current selection\nStrength: 40%\nPreserve Subject: ".data ++
        (escapeHtml (previewTextTail e prompt) ++ svgTail), ?_⟩,
    ⟨"data:image/svg+xml,".data ++ (svgHead ++ "Model: xAI Grok\n".data),
      "\nStrength: 40%\nPreserve Subject: ".data ++
        (escapeHtml (previewTextTail e prompt) ++ svgTail), ?_⟩,
    ⟨"data:image/svg+xml,".data ++ (svgHead ++ "Model: xAI Grok\nWorkflow: Edit current selection\n".data),
      "\nPreserve Subject: ".data ++
        (escapeHtml (previewTextTail e prompt) ++ svgTail), ?_⟩⟩
  · rw [hdec, (by decide : previewTextHead = "Model: xAI Grok".data ++
      "\nWorkflow: Edit current selection\nStrength: 40%\nPreserve Subject: ".data)]
    simp [List.append_assoc]
  · rw [hdec, (by decide : previewTextHead = "Model: xAI Grok\n".data ++
      ("Workflow: Edit current selection".data ++ "\nStrength: 40%\nPreserve Subject: ".data))]
    simp [List.append_assoc]
  · rw [hdec, (by decide : previewTextHead = "Model: xAI Grok\nWorkflow: Edit current selection\n".data ++
      ("Strength: 40%".data ++ "\nPreserve Subject: ".data))]
    simp [List.append_assoc]

/-- Witness for C9 at the concrete scenario of spec §8. -/
theorem previewArtifact_literals_witness :
    sampleElements.modelPicker = "grok".data ∧
      sampleElements.workflowPicker = "edit".data ∧
      sampleElements.strengthSlider = 40 ∧
      (ContainsStr (percentDecode (simulatePreview sampleElements "a red fox in snow".data))
          "Model: xAI Grok".data ∧
        ContainsStr (percentDecode (simulatePreview sampleElements "a red fox in snow".data))
          "Workflow: Edit current selection".data ∧
        ContainsStr (percentDecode (simulatePreview sampleElements "a red fox in snow".data))
          "Strength: 40%".data) :=
  ⟨rfl, rfl, rfl, previewArtifact_literals sampleElements "a red fox in snow".data rfl rfl rfl⟩
